import Mathlib

/-!
Verification development for the cypher watch-only wallet.

The definitions below are a shallow embedding of the two source files:
* `src/api/index.ts` — the Hono API with the wallet registry, the mock
  (simulator) chain provider, the real daemon-RPC provider and the routes;
* `src/entrypoints/popup/App.tsx` — the credential vault (PBKDF2 key
  derivation, AES-GCM secret payloads, the password verifier).

JavaScript numbers are modelled as `Int` (every value the code computes here
is integral and far below 2^53), byte arrays as `List Nat`, and external
nondeterminism (clock, random salt/iv/uuid, network responses) as explicit
parameters.  Web Crypto primitives (PBKDF2, AES-GCM) and the spec-described
`decrypt` operation are not part of the repository; they are modelled from
the spec where a claim needs them, as marked in the doc comments.
-/

/-- Byte strings (`Uint8Array` values) as lists of byte values. -/
abbrev Bytes := List Nat

/-- JSON values as they appear in the embedded response payloads.  Objects
are restricted to string-valued fields, which is all the envelope type
`{ result?: T; error?: { message?: string } }` in `daemonRpc` needs. -/
inductive Json where
  | null
  | bool (b : Bool)
  | num (n : Int)
  | str (s : String)
  | obj (fields : List (String × String))
deriving DecidableEq, Repr

/-- JavaScript truthiness of a `Json` value, as used by the checks
`if (payload.error)` and `if (!payload.result)` in `daemonRpc`.
(`null`/`undefined`, `false`, `0` and the empty string are falsy;
objects are always truthy.) -/
def jsTruthy : Json → Bool
  | Json.null => false
  | Json.bool b => b
  | Json.num n => n != 0
  | Json.str s => s != ""
  | Json.obj _ => true

/-- Truthiness of an optional field of the RPC envelope: an absent field is
`undefined`, which is falsy. -/
def optTruthy (o : Option Json) : Bool :=
  (o.map jsTruthy).getD false

/-- `WalletRecord` from `src/api/index.ts`. -/
structure WalletRecord where
  id : String
  address : String
  viewKey : String
  restoreHeight : Int
  createdAt : String
deriving DecidableEq, Repr

/-- `WalletBalance` from `src/api/index.ts`.  `network` is kept as a string
(the source's union of literal types). -/
structure WalletBalance where
  network : String
  balanceAtomic : String
  unlockedAtomic : String
  syncedHeight : Int
  lastUpdatedAt : String
deriving DecidableEq, Repr

/-- `WalletTx` from `src/api/index.ts`.  `direction` and `status` keep the
source's literal strings.  `timestamp` holds the Unix seconds value computed
by the source; the source renders it through `Date#toISOString`, an injective
external encoding. -/
structure WalletTx where
  txid : String
  direction : String
  amountAtomic : String
  feeAtomic : String
  height : Int
  confirmations : Int
  timestamp : Int
  status : String
deriving DecidableEq, Repr

/-- `pseudoHash` from `src/api/index.ts`: a 32-bit FNV-1a-style hash.
`h ^= input.charCodeAt(i)` and `Math.imul(h, 16777619)` operate on 32-bit
values whose unsigned representation is tracked here as a `Nat` below 2^32;
the final `Math.abs(h >>> 0)` is the identity on that representation.
`charCodeAt` yields UTF-16 code units, which agree with `Char.toNat` on the
ASCII strings this code feeds in. -/
def pseudoHash (input : String) : Nat :=
  input.data.foldl (fun h c => ((h ^^^ c.toNat) * 16777619) % 4294967296) 2166136261

/-- `formatAtomic` from `src/api/index.ts`: `String(Math.max(0, Math.floor(n)))`.
Every argument the source passes is integral, so `Math.floor` is the
identity. -/
def formatAtomic (n : Int) : String :=
  toString (max 0 n)

/-- `MockChainProvider.getBalance` from `src/api/index.ts`.  `now` stands for
the `new Date().toISOString()` call. -/
def MockChainProvider.getBalance (wallet : WalletRecord) (now : String) : WalletBalance :=
  let seed := pseudoHash (wallet.id ++ wallet.address ++ wallet.createdAt)
  let syncedHeight : Int := max wallet.restoreHeight (2850000 + ((seed % 10000 : Nat) : Int))
  let unlockedAtomic : Int := 1500000000000 + ((seed % 900000000000 : Nat) : Int)
  let pendingAtomic : Int := if seed % 2 == 0 then 80000000000 else 0
  let balanceAtomic : Int := unlockedAtomic + pendingAtomic
  { network := "stagenet"
    balanceAtomic := formatAtomic balanceAtomic
    unlockedAtomic := formatAtomic unlockedAtomic
    syncedHeight := syncedHeight
    lastUpdatedAt := now }

/-- The transaction-set seed of `MockChainProvider.getTransactions`:
`pseudoHash(wallet.id + wallet.address + "txs")`. -/
def mockTxsSeed (wallet : WalletRecord) : Nat :=
  pseudoHash (wallet.id ++ wallet.address ++ "txs")

/-- `baseHeight` of `MockChainProvider.getTransactions`. -/
def mockTxsBaseHeight (wallet : WalletRecord) : Int :=
  max wallet.restoreHeight (2850000 + ((mockTxsSeed wallet % 5000 : Nat) : Int))

/-- `tipHeight` of `MockChainProvider.getTransactions`: `baseHeight + 120`. -/
def mockTxsTipHeight (wallet : WalletRecord) : Int :=
  mockTxsBaseHeight wallet + 120

/-- The per-entry seed of `MockChainProvider.getTransactions`:
`pseudoHash(`${wallet.id}:${i}:${seed}`)`. -/
def mockTxSeed (wallet : WalletRecord) (i : Nat) : Nat :=
  pseudoHash (wallet.id ++ ":" ++ toString i ++ ":" ++ toString (mockTxsSeed wallet))

/-- The body of the generation loop of `MockChainProvider.getTransactions`
for index `i`.  `now` stands for `nowUnix()` (Unix seconds). -/
def MockChainProvider.mkTx (wallet : WalletRecord) (now : Int) (i : Nat) : WalletTx :=
  let txSeed := mockTxSeed wallet i
  let tipHeight := mockTxsTipHeight wallet
  let direction : String := if i % 3 == 0 then "out" else "in"
  let height : Int := tipHeight - (i : Int) * (1 + ((txSeed % 7 : Nat) : Int))
  let confirmations : Int := max 0 (tipHeight - height)
  let status : String := if confirmations < 10 then "pending" else "confirmed"
  let amountAtomic : Int :=
    if direction == "in" then 50000000000 + ((txSeed % 250000000000 : Nat) : Int)
    else 20000000000 + ((txSeed % 120000000000 : Nat) : Int)
  let feeAtomic : Int :=
    if direction == "out" then 1500000 + ((txSeed % 900000 : Nat) : Int) else 0
  let timestamp : Int := now - ((i : Int) + 1) * (4 + ((txSeed % 8 : Nat) : Int)) * 3600
  { txid := "mock_" ++ wallet.id.take 6 ++ "_" ++ toString i ++ "_" ++ String.mk (Nat.toDigits 16 txSeed)
    direction := direction
    amountAtomic := formatAtomic amountAtomic
    feeAtomic := formatAtomic feeAtomic
    height := height
    confirmations := confirmations
    timestamp := timestamp
    status := status }

/-- `MockChainProvider.getTransactions` from `src/api/index.ts`.  The source
default for `limit` is 10; the route always passes an explicit value.  The
`for` loop appending to `txs` is rendered as a map over `List.range`. -/
def MockChainProvider.getTransactions (wallet : WalletRecord) (limit : Int) (now : Int) :
    List WalletTx :=
  let count := (min (max limit 1) 50).toNat
  (List.range count).map (MockChainProvider.mkTx wallet now)

/-- The JSON-RPC envelope `{ result?: T; error?: { message?: string } }`
read by `RealMoneroProvider.daemonRpc`. -/
structure RpcEnvelope where
  error : Option Json
  result : Option Json
deriving Repr

/-- `Response.ok` of the `fetch` call in `daemonRpc`: status in [200, 299]. -/
def responseOk (status : Nat) : Bool :=
  200 ≤ status && status ≤ 299

/-- The `payload.error.message ?? "Daemon RPC error"` access in `daemonRpc`:
a `message` field of an error object is used even when empty; any other
shape of the error value falls back to the default text. -/
def rpcErrorMessage : Json → String
  | Json.obj fields =>
    match fields.lookup "message" with
    | some m => m
    | none => "Daemon RPC error"
  | _ => "Daemon RPC error"

/-- The `if (!payload.result) throw ...; return payload.result` tail of
`daemonRpc`: a missing or falsy `result` is a failure. -/
def daemonRpcResult : Option Json → Except String Json
  | some r => if jsTruthy r then Except.ok r else Except.error "Daemon RPC returned no result"
  | none => Except.error "Daemon RPC returned no result"

/-- `RealMoneroProvider.daemonRpc` from `src/api/index.ts`, as a function of
the HTTP status and decoded JSON body of the `fetch` response.  Every thrown
`Error` becomes `Except.error` carrying the message — one failure kind,
distinguished by message text only. -/
def RealMoneroProvider.daemonRpc (status : Nat) (payload : RpcEnvelope) : Except String Json :=
  if !responseOk status then Except.error ("Daemon RPC HTTP " ++ toString status)
  else
    match payload.error with
    | some e => if jsTruthy e then Except.error (rpcErrorMessage e) else daemonRpcResult payload.result
    | none => daemonRpcResult payload.result

/-- The `get_info` result type ascribed in `RealMoneroProvider.getBalance`:
`{ height?: number }`. -/
structure GetInfoResult where
  height : Option Int
deriving DecidableEq, Repr

/-- `RealMoneroProvider.getBalance` from `src/api/index.ts`.  `rpc` is the
outcome of the `daemonRpc("get_info")` call (a thrown error propagates);
`syncedHeight` is `Number(info.height ?? 0)`; `now` stands for
`new Date().toISOString()`. -/
def RealMoneroProvider.getBalance (rpc : Except String GetInfoResult)
    (_wallet : WalletRecord) (now : String) : Except String WalletBalance :=
  match rpc with
  | Except.error e => Except.error e
  | Except.ok info =>
    Except.ok
      { network := "stagenet"
        balanceAtomic := "0"
        unlockedAtomic := "0"
        syncedHeight := info.height.getD 0
        lastUpdatedAt := now }

/-- The `limit` handling of the `app.get("/wallets/:id/txs")` route:
`Number(c.req.query("limit") ?? 10)` followed by
`Number.isFinite(limit) ? limit : 10`.  `parsed` is the parsed query value,
`none` when the parameter is absent or does not parse to a finite number;
the value handed to the provider is NOT clamped here. -/
def routeTxsLimitArg (parsed : Option Int) : Int :=
  parsed.getD 10

/-- The `WalletRecord` built by `app.post("/wallets/register-local")`:
placeholder address and view key derived from the label and the generated
id. -/
def registerLocalRecord (walletLabel : String) (restoreHeight : Option Int)
    (id : String) (createdAt : String) : WalletRecord :=
  { id := id
    address := "pending-address:" ++ walletLabel ++ ":" ++ id
    viewKey := "pending-view-key:" ++ id
    restoreHeight := restoreHeight.getD 0
    createdAt := createdAt }

/-- The response body of `app.post("/wallets/register-local")`, as a
key-value list. -/
def registerLocalResponse (id walletLabel : String) : List (String × Json) :=
  [("ok", Json.bool true), ("walletId", Json.str id),
   ("walletLabel", Json.str walletLabel), ("mode", Json.str "mnemonic-local")]

/-- The response body of `app.post("/wallets/import")`, as a key-value
list. -/
def importResponse (id : String) : List (String × Json) :=
  [("ok", Json.bool true), ("walletId", Json.str id), ("watchOnly", Json.bool true)]

/-- The `wallet` object of the `app.get("/wallets/:id")` response, as a
key-value list (the surrounding body is `{ ok: true, wallet: ... }` and adds
no wallet data).  The source deliberately lists the four fields and no
`viewKey`. -/
def getWalletResponseWallet (w : WalletRecord) : List (String × Json) :=
  [("id", Json.str w.id), ("address", Json.str w.address),
   ("restoreHeight", Json.num w.restoreHeight), ("createdAt", Json.str w.createdAt)]

/-- Modelled from the spec: the Web Crypto PBKDF2-SHA256 derivation used by
`derivePasswordHash` in `src/entrypoints/popup/App.tsx` is external to the
repository.  The derived digest is modelled as the sealed triple of its
inputs — deterministic in (password, salt, iterations) and collision-free
across distinct inputs, as §4.4 of the spec assumes. -/
structure PBKDF2Digest where
  password : String
  salt : Bytes
  iterations : Nat
deriving DecidableEq, Repr

/-- `derivePasswordHash` from `src/entrypoints/popup/App.tsx` (the
`deriveBits` purpose of the KDF unit), under the digest model above. -/
def derivePasswordHash (password : String) (salt : Bytes) (iterations : Nat) : PBKDF2Digest :=
  { password := password, salt := salt, iterations := iterations }

/-- Modelled from the spec: the AES-GCM key produced by `deriveAesKey`
(Web Crypto `deriveKey`, 120000 PBKDF2 iterations, external to the
repository), determined by the password and salt. -/
structure AesKey where
  password : String
  salt : Bytes
deriving DecidableEq, Repr

/-- `deriveAesKey` from `src/entrypoints/popup/App.tsx`, under the key model
above (the iteration count is the fixed 120000 of the source). -/
def deriveAesKey (password : String) (salt : Bytes) : AesKey :=
  { password := password, salt := salt }

/-- Modelled from the spec: an AES-GCM ciphertext-plus-tag
(Web Crypto `crypto.subtle.encrypt`, external to the repository), modelled
as the sealed triple of key, nonce and plaintext: authenticated decryption
recovers the plaintext exactly when key and nonce match, and fails the
integrity check otherwise (§4.5: tampering or a wrong key is a hard
failure, never garbage plaintext). -/
structure GcmSealed where
  key : AesKey
  iv : Bytes
  plaintext : String
deriving DecidableEq, Repr

/-- Modelled from the spec: AES-GCM authenticated encryption. -/
def aesGcmEncrypt (key : AesKey) (iv : Bytes) (plaintext : String) : GcmSealed :=
  { key := key, iv := iv, plaintext := plaintext }

/-- Modelled from the spec: AES-GCM authenticated decryption — `none` is an
integrity failure. -/
def aesGcmDecrypt (key : AesKey) (iv : Bytes) (c : GcmSealed) : Option String :=
  if c.key = key ∧ c.iv = iv then some c.plaintext else none

/-- `EncryptedSecretPayload` as built by `saveEncryptedPayload` in
`src/entrypoints/popup/App.tsx`.  `salt` and `iv` are kept as bytes; the
source stores their base64 renderings, an injective external encoding. -/
structure EncryptedSecretPayload where
  version : Nat
  algorithm : String
  kdf : String
  iterations : Nat
  salt : Bytes
  iv : Bytes
  cipherText : GcmSealed
  createdAt : String
deriving DecidableEq, Repr

/-- The payload construction of `saveEncryptedPayload` from
`src/entrypoints/popup/App.tsx`.  The freshly drawn `salt` and `iv`
(`crypto.getRandomValues`) and the clock are parameters; the storage write
is external and keeps the returned value unchanged. -/
def saveEncryptedPayload (value password : String) (salt iv : Bytes)
    (createdAt : String) : EncryptedSecretPayload :=
  { version := 1
    algorithm := "AES-GCM"
    kdf := "PBKDF2-SHA256"
    iterations := 120000
    salt := salt
    iv := iv
    cipherText := aesGcmEncrypt (deriveAesKey password salt) iv value
    createdAt := createdAt }

/-- The outcome of decrypting a stored payload (§4.5 of the spec). -/
inductive DecryptResult where
  | ok (plaintext : String)
  | authenticationFailure
deriving DecidableEq, Repr

/-- Modelled from the spec: the `decrypt(payload, password)` operation of
§4.5 is not present in `src/` (no caller decrypts the stored mnemonic yet):
re-derive the key from the stored salt and the supplied password and attempt
authenticated decryption; an integrity failure is `authenticationFailure`. -/
def decrypt (payload : EncryptedSecretPayload) (password : String) : DecryptResult :=
  match aesGcmDecrypt (deriveAesKey password payload.salt) payload.iv payload.cipherText with
  | some plaintext => DecryptResult.ok plaintext
  | none => DecryptResult.authenticationFailure

/-- `PasswordVerifier` from `src/entrypoints/popup/App.tsx`.  `salt` and
`hash` are kept un-encoded (the source stores base64 renderings, injective
external encodings, and compares the rendered hashes for equality). -/
structure PasswordVerifier where
  version : Nat
  kdf : String
  iterations : Nat
  salt : Bytes
  hash : PBKDF2Digest
  createdAt : String
deriving DecidableEq, Repr

/-- The verifier construction of `savePasswordVerifier` from
`src/entrypoints/popup/App.tsx` (fresh salt and clock as parameters). -/
def savePasswordVerifier (password : String) (salt : Bytes) (createdAt : String) :
    PasswordVerifier :=
  { version := 1
    kdf := "PBKDF2-SHA256"
    iterations := 120000
    salt := salt
    hash := derivePasswordHash password salt 120000
    createdAt := createdAt }

/-- The extension-local storage slots the vault reads and writes
(`cypher_password_verifier`, `cypher_encrypted_mnemonic`); `none` models an
absent key (`extensionGet` returning `null`). -/
structure VaultStorage where
  passwordVerifier : Option PasswordVerifier
  encryptedMnemonic : Option EncryptedSecretPayload

/-- `verifyPassword` from `src/entrypoints/popup/App.tsx`: read only the
verifier record; with no record stored, return `false`; otherwise re-derive
the digest with the record's salt and iteration count and compare with the
stored hash. -/
def verifyPassword (storage : VaultStorage) (password : String) : Bool :=
  match storage.passwordVerifier with
  | none => false
  | some verifier =>
    decide (derivePasswordHash password verifier.salt verifier.iterations = verifier.hash)

/-- A registered wallet used for concrete evaluations: 20-character address
as the registration schema requires. -/
def sampleWallet : WalletRecord :=
  { id := "w"
    address := "aaaaaaaaaaaaaaaaaaaa"
    viewKey := "bbbbbbbbbbbbbbbbbbbb"
    restoreHeight := 0
    createdAt := "2024-01-01T00:00:00.000Z" }

/-- A registered wallet with a high restore height. -/
def highRestoreWallet : WalletRecord :=
  { id := "w2"
    address := "cccccccccccccccccccc"
    viewKey := "dddddddddddddddddddd"
    restoreHeight := 3000000
    createdAt := "2024-01-01T00:00:00.000Z" }

/-- A default transaction for `List.headD`. -/
def defaultTx : WalletTx :=
  { txid := "", direction := "in", amountAtomic := "0", feeAtomic := "0",
    height := 0, confirmations := 0, timestamp := 0, status := "pending" }

/-- C1: decrypting the payload produced by encrypting a non-empty secret
under a password returns the original secret, and decrypting it under any
different password fails with `AuthenticationFailure` rather than returning
any plaintext. -/
theorem decrypt_encrypt_roundtrip (secret pwd pwd2 : String) (salt iv : Bytes)
    (createdAt : String) (_hsecret : secret ≠ "") (hpwd : pwd2 ≠ pwd) :
    decrypt (saveEncryptedPayload secret pwd salt iv createdAt) pwd = DecryptResult.ok secret ∧
    decrypt (saveEncryptedPayload secret pwd salt iv createdAt) pwd2 =
      DecryptResult.authenticationFailure := by
  constructor
  · simp [decrypt, saveEncryptedPayload, aesGcmDecrypt, aesGcmEncrypt, deriveAesKey]
  · have hkey : deriveAesKey pwd salt ≠ deriveAesKey pwd2 salt := by
      simp [deriveAesKey]
      intro h
      exact hpwd h.symm
    simp [decrypt, saveEncryptedPayload, aesGcmDecrypt, aesGcmEncrypt, hkey]

/-- C1 witness: the spec scenario — encrypt "test secret" under
"correct-password", decrypt with the right and with a wrong password. -/
theorem decrypt_encrypt_roundtrip_witness :
    decrypt (saveEncryptedPayload "test secret" "correct-password" [1, 2] [3, 4] "t")
        "correct-password" = DecryptResult.ok "test secret" ∧
    decrypt (saveEncryptedPayload "test secret" "correct-password" [1, 2] [3, 4] "t")
        "wrong-password" = DecryptResult.authenticationFailure :=
  decrypt_encrypt_roundtrip "test secret" "correct-password" "wrong-password" [1, 2] [3, 4] "t"
    (by decide) (by decide)

/-- C2 counterexample: the claim fails for the real provider variant — with
a registered wallet whose restore height is 3000000 and a daemon reporting
height 5, `RealMoneroProvider.getBalance` returns `syncedHeight = 5`, below
the wallet's `restoreHeight`. -/
theorem syncedHeight_below_restore_counterexample :
    RealMoneroProvider.getBalance (Except.ok { height := some 5 }) highRestoreWallet "t" =
      Except.ok
        { network := "stagenet", balanceAtomic := "0", unlockedAtomic := "0",
          syncedHeight := 5, lastUpdatedAt := "t" } ∧
    ¬ (highRestoreWallet.restoreHeight ≤ 5) :=
  ⟨rfl, by decide⟩

/-- C2 amended: for every wallet and every call, the simulator provider's
`syncedHeight` is at least the wallet's `restoreHeight`; the real provider
instead returns exactly the daemon-reported height (`info.height ?? 0`),
with no lower bound from `restoreHeight`. -/
theorem syncedHeight_spec (wallet : WalletRecord) (now : String)
    (info : GetInfoResult) (nowR : String) :
    wallet.restoreHeight ≤ (MockChainProvider.getBalance wallet now).syncedHeight ∧
    RealMoneroProvider.getBalance (Except.ok info) wallet nowR =
      Except.ok
        { network := "stagenet", balanceAtomic := "0", unlockedAtomic := "0",
          syncedHeight := info.height.getD 0, lastUpdatedAt := nowR } := by
  constructor
  · simp [MockChainProvider.getBalance]
  · rfl

/-- C3 counterexample: the route passes the parsed limit to the provider
unchanged — for the query value 0 the provider receives 0, which is not in
[1, 50], so the limit is not clamped before reaching the provider. -/
theorem route_limit_unclamped_counterexample :
    routeTxsLimitArg (some 0) = 0 ∧ ¬ (1 ≤ routeTxsLimitArg (some 0)) :=
  ⟨rfl, by decide⟩

/-- C3 amended: for every wallet and every integer limit (including zero and
negative values) the simulator provider returns exactly
`min(max(limit, 1), 50)` entries, but the clamping happens inside the
provider: the route hands the parsed limit to the provider unchanged
(substituting 10 only when the query value is absent or not finite). -/
theorem txs_limit_clamp_spec (wallet : WalletRecord) (limit : Int) (now : Int) :
    ((MockChainProvider.getTransactions wallet limit now).length : Int) =
      min (max limit 1) 50 ∧
    routeTxsLimitArg (some limit) = limit := by
  constructor
  · simp only [MockChainProvider.getTransactions, List.length_map, List.length_range]
    omega
  · rfl

/-- C4 counterexample: for a concrete registered wallet the simulator's
transaction list is not ordered by strictly decreasing height — the entry at
index 3 has height 2852027, strictly above the 2852025 of the entry at
index 2. -/
theorem txs_heights_not_descending_counterexample :
    ((MockChainProvider.getTransactions sampleWallet 5 0).get ⟨2, by decide⟩).height = 2852025 ∧
    ((MockChainProvider.getTransactions sampleWallet 5 0).get ⟨3, by decide⟩).height = 2852027 ∧
    ¬ (((MockChainProvider.getTransactions sampleWallet 5 0).get ⟨3, by decide⟩).height <
        ((MockChainProvider.getTransactions sampleWallet 5 0).get ⟨2, by decide⟩).height) := by
  exact ⟨by decide, by decide, by decide⟩

/-- C4 amended: the height of the simulator entry at index `i` equals
`tipHeight − i·(1 + txSeed_i mod 7)` — the tip minus the index scaled by a
per-entry step in [1, 7] — so every later entry sits below the tip by at
least its index, but consecutive heights need not strictly decrease. -/
theorem txs_heights_formula (wallet : WalletRecord) (limit : Int) (now : Int) :
    (MockChainProvider.getTransactions wallet limit now).map (fun tx => tx.height) =
      (List.range (min (max limit 1) 50).toNat).map
        (fun (i : Nat) => mockTxsTipHeight wallet - (i : Int) * (1 + ((mockTxSeed wallet i % 7 : Nat) : Int))) := by
  simp only [MockChainProvider.getTransactions, List.map_map]
  rfl

/-- C5 counterexample: `daemonRpc` tests JavaScript truthiness, not field
presence — a 2xx response whose envelope carries a `result` field (`false`)
and no `error` field still fails, and a 2xx response whose envelope carries
an `error` field (`null`) alongside a truthy result succeeds. -/
theorem daemonRpc_truthiness_counterexample :
    RealMoneroProvider.daemonRpc 200 { error := none, result := some (Json.bool false) } =
      Except.error "Daemon RPC returned no result" ∧
    RealMoneroProvider.daemonRpc 200 { error := some Json.null, result := some (Json.num 7) } =
      Except.ok (Json.num 7) :=
  ⟨rfl, rfl⟩

/-- C5 amended: a `daemonRpc` call succeeds exactly when the HTTP status is
2xx, the envelope's `error` field is absent or falsy, and its `result` field
is present and truthy; every other combination fails, and all failures are
the one thrown-`Error` kind (here `Except.error`), distinguished only by
message text. -/
theorem daemonRpc_failure_spec (status : Nat) (payload : RpcEnvelope) :
    (RealMoneroProvider.daemonRpc status payload).isOk =
      (responseOk status && !optTruthy payload.error && optTruthy payload.result) := by
  have hres : ∀ r : Option Json, (daemonRpcResult r).isOk = optTruthy r := by
    intro r
    cases r with
    | none => rfl
    | some v =>
      by_cases hv : jsTruthy v <;>
        simp [daemonRpcResult, optTruthy, hv, Except.isOk, Except.toBool]
  unfold RealMoneroProvider.daemonRpc
  by_cases hok : responseOk status
  · cases herr : payload.error with
    | none => simp [hok, herr, hres, optTruthy]
    | some e =>
      by_cases he : jsTruthy e
      · simp [hok, herr, he, optTruthy, Except.isOk, Except.toBool]
      · simp [hok, herr, he, optTruthy, hres]
  · simp [hok, Except.isOk, Except.toBool]

/-- C6: two simulator `getBalance` calls with the wallet's identity fields
(id, address, createdAt, restoreHeight) unchanged return identical
`balanceAtomic`, `unlockedAtomic` and `syncedHeight`, even if the view key
or the call time differ. -/
theorem mock_balance_deterministic (id address createdAt : String) (restoreHeight : Int)
    (vk1 vk2 now1 now2 : String) :
    (MockChainProvider.getBalance ⟨id, address, vk1, restoreHeight, createdAt⟩ now1).balanceAtomic =
      (MockChainProvider.getBalance ⟨id, address, vk2, restoreHeight, createdAt⟩ now2).balanceAtomic ∧
    (MockChainProvider.getBalance ⟨id, address, vk1, restoreHeight, createdAt⟩ now1).unlockedAtomic =
      (MockChainProvider.getBalance ⟨id, address, vk2, restoreHeight, createdAt⟩ now2).unlockedAtomic ∧
    (MockChainProvider.getBalance ⟨id, address, vk1, restoreHeight, createdAt⟩ now1).syncedHeight =
      (MockChainProvider.getBalance ⟨id, address, vk2, restoreHeight, createdAt⟩ now2).syncedHeight :=
  ⟨rfl, rfl, rfl⟩

/-- C7: every transaction returned by the simulator provider has
`confirmations = tipHeight − height`, non-negative, and its status is
"confirmed" exactly when confirmations reach 10 (otherwise "pending"). -/
theorem tx_confirmations_spec (wallet : WalletRecord) (limit now : Int) :
    ∀ tx ∈ MockChainProvider.getTransactions wallet limit now,
      tx.confirmations = mockTxsTipHeight wallet - tx.height ∧
      0 ≤ tx.confirmations ∧
      (tx.status = "confirmed" ↔ 10 ≤ tx.confirmations) := by
  intro tx htx
  simp only [MockChainProvider.getTransactions, List.mem_map, List.mem_range] at htx
  obtain ⟨i, _, rfl⟩ := htx
  have hstep : (0 : Int) ≤ (i : Int) * (1 + ((mockTxSeed wallet i % 7 : Nat) : Int)) := by
    have h1 : (0 : Int) ≤ (i : Int) := Int.natCast_nonneg i
    have h2 : (0 : Int) ≤ ((mockTxSeed wallet i % 7 : Nat) : Int) := Int.natCast_nonneg _
    nlinarith
  simp only [MockChainProvider.mkTx]
  refine ⟨by omega, by omega, ?_⟩
  split
  · rename_i hlt
    constructor
    · intro habs
      exact absurd habs (by decide)
    · omega
  · rename_i hge
    simp only [true_iff]
    omega

/-- C7 witness: the confirmation property evaluated on the first transaction
generated for a concrete registered wallet. -/
theorem tx_confirmations_spec_witness :
    ((MockChainProvider.getTransactions sampleWallet 1 0).headD defaultTx).confirmations =
      mockTxsTipHeight sampleWallet -
        ((MockChainProvider.getTransactions sampleWallet 1 0).headD defaultTx).height ∧
    0 ≤ ((MockChainProvider.getTransactions sampleWallet 1 0).headD defaultTx).confirmations ∧
    (((MockChainProvider.getTransactions sampleWallet 1 0).headD defaultTx).status = "confirmed" ↔
      10 ≤ ((MockChainProvider.getTransactions sampleWallet 1 0).headD defaultTx).confirmations) :=
  tx_confirmations_spec sampleWallet 1 0 _ (by decide)

/-- C8 counterexample: the secrecy-as-substring part of the claim fails —
registering a local wallet labelled "pending-view-key" produces the
placeholder address "pending-address:pending-view-key:<id>", which contains
the stored viewKey "pending-view-key:<id>" in full, and that address is
returned verbatim in the `getWallet` response. -/
theorem viewKey_substring_counterexample :
    (registerLocalRecord "pending-view-key" none "x" "t").address =
      "pending-address:" ++ (registerLocalRecord "pending-view-key" none "x" "t").viewKey ∧
    ("address", Json.str (registerLocalRecord "pending-view-key" none "x" "t").address) ∈
      getWalletResponseWallet (registerLocalRecord "pending-view-key" none "x" "t") ∧
    List.IsInfix (registerLocalRecord "pending-view-key" none "x" "t").viewKey.data
      (registerLocalRecord "pending-view-key" none "x" "t").address.data := by
  refine ⟨rfl, by decide, ⟨"pending-address:".data, [], by decide⟩⟩

/-- C8 amended: the `getWallet` response's wallet object carries exactly the
fields id, address, restoreHeight, createdAt — never a `viewKey` field — and
neither registration response carries a `viewKey` field; the stored viewKey
string can nonetheless appear inside the address field of a `getWallet`
response (see the counterexample). -/
theorem response_viewKey_field_spec (w : WalletRecord) (id walletLabel : String) :
    (getWalletResponseWallet w).map Prod.fst = ["id", "address", "restoreHeight", "createdAt"] ∧
    "viewKey" ∉ (getWalletResponseWallet w).map Prod.fst ∧
    "viewKey" ∉ (registerLocalResponse id walletLabel).map Prod.fst ∧
    "viewKey" ∉ (importResponse id).map Prod.fst := by
  refine ⟨rfl, ?_, ?_, ?_⟩ <;>
    simp [getWalletResponseWallet, registerLocalResponse, importResponse]

/-- C9: the password check reads only the verifier record, never the
encrypted payload — two runs over storages that differ only in the encrypted
payload (including any corruption of its cipherText bytes) return the same
boolean. -/
theorem verify_independent_of_payload (password : String) (verifier : Option PasswordVerifier)
    (payload1 payload2 : Option EncryptedSecretPayload) :
    verifyPassword { passwordVerifier := verifier, encryptedMnemonic := payload1 } password =
      verifyPassword { passwordVerifier := verifier, encryptedMnemonic := payload2 } password :=
  rfl

/-- C10: with no password-verifier record in storage, `verifyPassword`
returns `false` for every password (it is a total function — it never
succeeds and never raises), so unlocking an empty vault is always
rejected. -/
theorem verify_empty_vault_false (password : String) (payload : Option EncryptedSecretPayload) :
    verifyPassword { passwordVerifier := none, encryptedMnemonic := payload } password = false :=
  rfl
